import Mathlib

set_option maxRecDepth 8192

/-
  Shallow embedding of the scrapy-warcio archival writer
  (src/scrapy_warcio/warcio.py, class ScrapyWarcIo) together with the
  parts of its runtime environment that the class observes: the
  filesystem (modelled as an association list of file paths to file
  data plus a list of existing directories), the clock / uuid / size
  oracles (modelled as an Env of pure functions indexed by a tick
  counter stored in the writer state), and the external warcio library
  call WARCWriter.create_warc_record (modelled as the construction of a
  SerializedRecord value carrying exactly the arguments the source
  passes to it).

  Python exceptions are modelled by PyError; a method that can raise
  returns a PRes value carrying the raised error together with the
  state at the moment of the raise (Python exceptions do not roll back
  mutations).  The mutual recursion bump_serial -> write_warcinfo ->
  write_record -> bump_serial is made structural with a fuel argument;
  the dynamic call depth of the source is bounded (the inner
  bump_serial call never rotates because the freshly named segment
  does not exist on disk), so any fuel of the shape fuel+1+1+1+1+1 is
  enough for a whole ScrapyWarcIo.write call, as the theorems below
  show by holding for every fuel.
-/

/-- Python exception values raised by the source (constructor per
exception class, with the message where the source formats one).
overflowError is Python's builtin OverflowError: the source never
raises it, but the constructor is needed to state that fact.
fuelExhausted is an artifact of the fuel-based embedding and is never
produced from sufficient fuel. -/
inductive PyError where
  | valueError (msg : String)
  | ioError (msg : String)
  | keyError (key : String)
  | attributeError (attr : String)
  | typeError (msg : String)
  | overflowError (msg : String)
  | fuelExhausted
deriving DecidableEq

/-- The record value handed to the external warcio library by
ScrapyWarcIo.write_record: exactly the arguments of the
writer.create_warc_record / StatusAndHeaders calls in the source
(uri, record_type, payload, and the http_headers block built from the
statusline, the protocol and the headers list).  Note the source
passes the WARC header tuples it built as the *http* headers, and
passes record_type and uri as fixed literals. -/
structure SerializedRecord where
  uri : String
  record_type : String
  http_statusline : String
  http_protocol : String
  http_headers : List (String × String)
  payload : String
deriving DecidableEq

/-- One on-disk file: the WARC records appended to it so far and its
on-disk byte size as reported by os.stat().st_size. -/
structure FileData where
  records : List SerializedRecord
  size : Nat
deriving DecidableEq

/-- The self.config dictionary of ScrapyWarcIo.__init__ (the field
tla holds the entry whose dictionary key in the source is the naming
prefix setting; the source binds it to a local called tla inside
warcfile). -/
structure Config where
  warc_spec : String
  max_warc_size : Nat
  collection : String
  description : String
  operator : String
  robots : String
  user_agent : String
  tla : String
  warc_dest : String
deriving DecidableEq

/-- The ambient environment: pure oracles for everything the source
reads from outside its own state.  Clock-dependent oracles are indexed
by the tick counter held in the writer state; each sample advances the
tick. -/
structure Env where
  /-- sys.getsizeof of a content string -/
  getsizeof : String → Nat
  /-- number of bytes the gzip container append of one record adds to the file -/
  frameSize : SerializedRecord → Nat
  /-- datetime.now(timezone.utc).strftime of warcfile, per tick -/
  timestamp : Nat → String
  /-- socket.gethostname() -/
  hostname : String
  /-- uuid.uuid1() of __record_id, per tick -/
  uuid : Nat → String
  /-- scrapy_warcio.utils.warc_date() sample, per tick -/
  warcDateNow : Nat → String
  /-- scrapy.__version__ -/
  scrapyVersion : String
  /-- urllib.parse.urlparse(url).path -/
  urlparsePath : String → String

/-- The mutable state an ScrapyWarcIo instance can observe and change:
its own attributes (warc_fname, warc_count, warc_size, max_serial,
config) and the filesystem (files and directories).  clock counts the
oracle samples taken so far; trace is the chronological log of every
record append (file path paired with the record), an instrumentation
of the write_record side effect. -/
structure WState where
  warc_fname : Option String
  warc_count : Nat
  warc_size : Nat
  max_serial : Nat
  config : Config
  fs : List (String × FileData)
  dirs : List String
  clock : Nat
  trace : List (String × SerializedRecord)
deriving DecidableEq

/-- Result of a Python method call: the returned value or the raised
exception, in both cases with the state at the moment control leaves
the method. -/
inductive PRes (α : Type) where
  | ok : α → WState → PRes α
  | err : PyError → WState → PRes α
deriving DecidableEq

/-- The state a call left behind, whether it returned or raised. -/
def presState {α : Type} : PRes α → WState
  | PRes.ok _ s => s
  | PRes.err _ s => s

/-- Whether a call returned normally. -/
def presIsOk {α : Type} : PRes α → Bool
  | PRes.ok _ _ => true
  | PRes.err _ _ => false

/-- Whether a call raised Python's builtin OverflowError. -/
def presErrIsOverflow {α : Type} : PRes α → Bool
  | PRes.err (PyError.overflowError _) _ => true
  | _ => false

/-- First-match association lookup (dict access on string keys). -/
def lookupHeader : List (String × String) → String → Option String
  | [], _ => none
  | (k, v) :: rest, key => if k = key then some v else lookupHeader rest key

/-- Lookup of a file's data by path. -/
def fsLookup : List (String × FileData) → String → Option FileData
  | [], _ => none
  | (k, v) :: rest, f => if k = f then some v else fsLookup rest f

/-- Replace a file's data, or create the file if absent. -/
def fsUpdate : List (String × FileData) → String → FileData → List (String × FileData)
  | [], f, fd => [(f, fd)]
  | (k, v) :: rest, f, fd => if k = f then (f, fd) :: rest else (k, v) :: fsUpdate rest f fd

/-- os.path.exists: true for existing files and directories. -/
def pathExists (s : WState) (p : String) : Bool :=
  (fsLookup s.fs p).isSome || s.dirs.contains p

/-- str.zfill: left-pad with zeros to the given width. -/
def zfill (w : Nat) (s : String) : String :=
  if w ≤ s.length then s
  else String.mk (List.replicate (w - s.length) '0') ++ s

/-- os.path.join for one directory component. -/
def ospJoin (d n : String) : String :=
  if d = "" then n else if d.endsWith "/" then d ++ n else d ++ "/" ++ n

/-- ScrapyWarcIo.WARC_LINE_SEP -/
def WARC_LINE_SEP : String := "\r\n"

/-- ScrapyWarcIo.WARC_SERIAL_ZFILL -/
def WARC_SERIAL_ZFILL : Nat := 5

/-- self.max_serial of __init__: the integer written with
WARC_SERIAL_ZFILL many digit-9 characters. -/
def initMaxSerial : Nat := 10 ^ WARC_SERIAL_ZFILL - 1

/-- A duck-typed Scrapy request or response as the source observes it:
each optional field is present exactly when hasattr holds for the
corresponding attribute.  headers is the header mapping in iteration
order; meta is the request.meta dictionary restricted to string
values. -/
structure PyObj where
  url : String
  headers : Option (List (String × String))
  method : Option String
  status : Option Nat
  body : Option String
  meta : Option (List (String × String))
deriving DecidableEq

/-- ScrapyWarcIo.get_headers: the WARC record http block rendered from
a Scrapy object; raises ValueError when the object has a header
collection but neither a method nor a status attribute. -/
def get_headers (env : Env) (record : PyObj) : Except PyError String :=
  match record.headers with
  | none => Except.ok ""
  | some hs =>
    match record.method with
    | some m =>
      Except.ok (String.intercalate WARC_LINE_SEP
        ((m ++ " " ++ env.urlparsePath record.url ++ " " ++ "HTTP/1.0")
          :: hs.map (fun kv => kv.1 ++ ": " ++ kv.2)))
    | none =>
      match record.status with
      | some st =>
        Except.ok (String.intercalate WARC_LINE_SEP
          (("HTTP/1.0 " ++ toString st)
            :: hs.map (fun kv => kv.1 ++ ": " ++ kv.2)))
      | none => Except.error (PyError.valueError "Unable to form http_line from record.")

/-- ScrapyWarcIo.__record_id: a fresh urn:uuid string from the uuid
oracle; advances the tick. -/
def record_id (env : Env) (s : WState) : String × WState :=
  ("<urn:uuid:" ++ env.uuid s.clock ++ ">", { s with clock := s.clock + 1 })

/-- Modelled from the spec: scrapy_warcio.utils.warc_date (module
scrapy_warcio/utils.py, absent from src/) returns the current capture
time as an ISO-8601 UTC string; modelled as a sample of the
warcDateNow oracle, advancing the tick. -/
def warc_date (env : Env) (s : WState) : String × WState :=
  (env.warcDateNow s.clock, { s with clock := s.clock + 1 })

/-- The characters of a hostname before its first dot. -/
def takeUntilDot : List Char → List Char
  | [] => []
  | c :: rest => if c = '.' then [] else c :: takeUntilDot rest

/-- socket.gethostname().split('.')[0] -/
def shortHostname (h : String) : String := String.mk (takeUntilDot h.data)

/-- The segment file name ScrapyWarcIo.warcfile computes:
prefix-timestamp-serial-shorthostname.warc.gz joined under warc_dest. -/
def newSegName (env : Env) (s : WState) : String :=
  ospJoin s.config.warc_dest
    (String.intercalate "-"
      [s.config.tla, env.timestamp s.clock,
       zfill WARC_SERIAL_ZFILL (toString s.warc_count),
       shortHostname env.hostname] ++ ".warc.gz")

/-- ScrapyWarcIo.warcfile: new segment file name; raises ValueError
when warc_count exceeds max_serial, IOError when warc_dest is set but
absent, IOError when the computed file already exists.  The timestamp
sample taken to build the name advances the clock. -/
def warcfile (env : Env) (s : WState) : PRes String :=
  if s.warc_count > s.max_serial then
    PRes.err (PyError.valueError
      ("warc_count: " ++ toString s.warc_count ++ " exceeds max_serial: "
        ++ toString s.max_serial)) s
  else if s.config.warc_dest ≠ "" ∧ pathExists s s.config.warc_dest = false then
    PRes.err (PyError.ioError ("warc_dest not found: " ++ s.config.warc_dest))
      { s with clock := s.clock + 1 }
  else if pathExists s (newSegName env s) = true then
    PRes.err (PyError.ioError ("WARC file exists: " ++ newSegName env s))
      { s with clock := s.clock + 1 }
  else
    PRes.ok (newSegName env s) { s with clock := s.clock + 1 }

/-- The record ScrapyWarcIo.write_record hands to the warcio library:
uri, record_type, statusline and protocol are the literals of the
source; the headers list built by the caller becomes the http_headers
of the StatusAndHeaders block; the content string is the payload.  The
content_type argument of write_record is not passed on (the source
drops it, as it drops the bheaders list it builds). -/
def mkRec (hdrs : List (String × String)) (content : String) : SerializedRecord :=
  { uri := "https://www.test.nl", record_type := "response",
    http_statusline := "200 OK", http_protocol := "HTTPS",
    http_headers := hdrs, payload := content }

/-- open(self.warc_fname, 'ab') followed by writer.write_record:
append-create the file, append one gzip frame, grow the on-disk size
by the frame's byte count, and log the append in the trace. -/
def appendRecord (env : Env) (s : WState) (f : String) (r : SerializedRecord) : WState :=
  let old := (fsLookup s.fs f).getD { records := [], size := 0 }
  { s with
    fs := fsUpdate s.fs f { records := old.records ++ [r], size := old.size + env.frameSize r },
    trace := s.trace ++ [(f, r)] }

/-- The WARC header tuples ScrapyWarcIo.write builds for the response
record. -/
def response_warc_headers (response : PyObj) (wdate rid : String) : List (String × String) :=
  [("WARC-Type", "response"),
   ("WARC-Target-URI", response.url),
   ("WARC-Date", wdate),
   ("WARC-Record-ID", rid)]

/-- The WARC header tuples ScrapyWarcIo.write_request builds for the
request record. -/
def request_warc_headers (request : PyObj) (wdate rid concurrent_to : String) :
    List (String × String) :=
  [("WARC-Type", "request"),
   ("WARC-Target-URI", request.url),
   ("WARC-Date", wdate),
   ("WARC-Record-ID", rid),
   ("WARC-Concurrent-To", concurrent_to)]

/-- The WARC header tuples ScrapyWarcIo.write_warcinfo builds. -/
def warcinfo_warc_headers (wdate fname rid : String) : List (String × String) :=
  [("WARC-Type", "warcinfo"),
   ("WARC-Date", wdate),
   ("WARC-Filename", fname),
   ("WARC-Record-ID", rid)]

/-- The warc-fields content of ScrapyWarcIo.write_warcinfo. -/
def warcinfo_content (env : Env) (c : Config) : String :=
  String.intercalate WARC_LINE_SEP
    ["software: Scrapy/" ++ env.scrapyVersion ++ " (+https://scrapy.org)",
     "format: WARC file version 1.0",
     "conformsTo: " ++ c.warc_spec,
     "operator: " ++ c.operator,
     "isPartOf: " ++ c.collection,
     "description: " ++ c.description,
     "robots: " ++ c.robots,
     "http-header-user-agent: " ++ c.user_agent]

mutual

/-- The body of the final if-block of ScrapyWarcIo.bump_serial, run
exactly when its create_new_warc flag is true: obtain a new name from
warcfile, install it as warc_fname, write the warcinfo record into the
new segment, and bump warc_count. -/
def create_new_warc_step : Nat → Env → WState → PRes Unit
  | 0, _, s => PRes.err PyError.fuelExhausted s
  | fuel + 1, env, s =>
    match warcfile env s with
    | PRes.err e s1 => PRes.err e s1
    | PRes.ok fname s1 =>
      match write_warcinfo fuel env { s1 with warc_fname := some fname } with
      | PRes.err e s3 => PRes.err e s3
      | PRes.ok _ s3 => PRes.ok () { s3 with warc_count := s3.warc_count + 1 }

/-- ScrapyWarcIo.bump_serial: set the create_new_warc flag (no current
name, or current on-disk size plus the new content may reach
max_warc_size, refreshing warc_size from disk on the way), and run
create_new_warc_step when it is set.  A current name whose file is
missing on disk disables rotation entirely and leaves warc_size
stale. -/
def bump_serial : Nat → Env → WState → Nat → PRes Unit
  | 0, _, s, _ => PRes.err PyError.fuelExhausted s
  | fuel + 1, env, s, content_bytes =>
    match s.warc_fname with
    | none => create_new_warc_step fuel env s
    | some f =>
      match fsLookup s.fs f with
      | none => PRes.ok () s
      | some fd =>
        if s.config.max_warc_size ≤ fd.size + content_bytes then
          create_new_warc_step fuel env { s with warc_size := fd.size }
        else
          PRes.ok () { s with warc_size := fd.size }

/-- ScrapyWarcIo.write_warcinfo: build the warcinfo headers and
warc-fields content and hand them to write_record. -/
def write_warcinfo : Nat → Env → WState → PRes Unit
  | 0, _, s => PRes.err PyError.fuelExhausted s
  | fuel + 1, env, s =>
    let p1 := warc_date env s
    let p2 := record_id env p1.2
    write_record fuel env p2.2
      (warcinfo_warc_headers p1.1 (p2.2.warc_fname.getD "") p2.1)
      "application/warc-fields"
      (warcinfo_content env p2.2.config)

/-- ScrapyWarcIo.write_record: run bump_serial sized with
sys.getsizeof of the content, then append one record built by mkRec to
the current segment file.  (The bheaders list the source builds is
dead; the content_type argument is accepted and dropped exactly as the
source drops it.) -/
def write_record : Nat → Env → WState → List (String × String) → String → String → PRes Unit
  | 0, _, s, _, _, _ => PRes.err PyError.fuelExhausted s
  | fuel + 1, env, s, headers, _content_type, content =>
    match bump_serial fuel env s (env.getsizeof content) with
    | PRes.err e s1 => PRes.err e s1
    | PRes.ok _ s1 =>
      match s1.warc_fname with
      | none => PRes.err (PyError.typeError
          "expected str, bytes or os.PathLike object, not NoneType") s1
      | some f => PRes.ok () (appendRecord env s1 f (mkRec headers content))

end

/-- ScrapyWarcIo.write_request: build the request record headers (with
WARC-Concurrent-To set to the caller-supplied response record id and
WARC-Date read from request.meta) and content, then write_record. -/
def write_request (fuel : Nat) (env : Env) (s : WState) (request : PyObj)
    (concurrent_to : String) : PRes Unit :=
  match request.meta with
  | none => PRes.err (PyError.attributeError "meta") s
  | some meta =>
    match lookupHeader meta "WARC-Date" with
    | none => PRes.err (PyError.keyError "WARC-Date") s
    | some wdate =>
      let p := record_id env s
      match get_headers env request with
      | Except.error e => PRes.err e p.2
      | Except.ok gh =>
        match request.body with
        | none => PRes.err (PyError.attributeError "body") p.2
        | some b =>
          write_record fuel env p.2
            (request_warc_headers request wdate p.1 concurrent_to)
            "application/http;msgtype=request"
            (gh ++ WARC_LINE_SEP ++ WARC_LINE_SEP ++ b)

/-- ScrapyWarcIo.write: validate the exchange, then write the response
record followed by the request record linked to it.  The WARC-Date of
both records is the value pre-stamped at request.meta key WARC-Date
(the validation guarantees the key is present and nonempty, so the
subsequent direct dictionary accesses cannot fail). -/
def write (fuel : Nat) (env : Env) (s : WState) (response request : PyObj) : PRes Unit :=
  if response.status.isNone then
    PRes.err (PyError.valueError "Response missing HTTP status") s
  else if response.body.isNone then
    PRes.err (PyError.valueError "Response missing body") s
  else if request.method.isNone then
    PRes.err (PyError.valueError "Request missing method") s
  else
    match request.meta with
    | none => PRes.err (PyError.valueError "Request missing meta") s
    | some meta =>
      if (lookupHeader meta "WARC-Date").getD "" = "" then
        PRes.err (PyError.valueError "Request missing WARC-Date") s
      else
        let p := record_id env s
        match get_headers env response with
        | Except.error e => PRes.err e p.2
        | Except.ok gh =>
          match write_record fuel env p.2
              (response_warc_headers response ((lookupHeader meta "WARC-Date").getD "") p.1)
              "application/http;msgtype=response"
              (gh ++ WARC_LINE_SEP ++ WARC_LINE_SEP ++ (response.body.getD ""))
            with
          | PRes.err e s2 => PRes.err e s2
          | PRes.ok _ s2 => write_request fuel env s2 request p.1

/-- The kind of a record as the source labels it: the WARC-Type entry
of the header tuples the caller constructed (the serialized
record_type field is what the warcio library call receives instead). -/
def recordKind (r : SerializedRecord) : Option String :=
  lookupHeader r.http_headers "WARC-Type"

/-- The self.config dictionary literal of ScrapyWarcIo.__init__. -/
def defaultConfig : Config :=
  { warc_spec := "https://iipc.github.io/warc-specifications/specifications/warc-format/warc-1.0/",
    max_warc_size := 10000000000,
    collection := "quotes",
    description := "description",
    operator := "john@doe.nl",
    robots := "obey",
    user_agent := "",
    tla := "rec",
    warc_dest := "" }

/-- A fresh ScrapyWarcIo instance over a filesystem: class attributes
warc_dest/warc_fname/warc_count/warc_size and the __init__ assignments. -/
def initState (fs : List (String × FileData)) (dirs : List String) : WState :=
  { warc_fname := none, warc_count := 0, warc_size := 0,
    max_serial := initMaxSerial, config := defaultConfig,
    fs := fs, dirs := dirs, clock := 0, trace := [] }

-- scratch experiments

/-- The warcinfo record write_warcinfo constructs when invoked at
state s2 with warc_fname nf: its WARC-Date and WARC-Record-ID consume
the two oracle samples starting at s2.clock. -/
def warcinfoRecord (env : Env) (s2 : WState) (nf : String) : SerializedRecord :=
  mkRec
    (warcinfo_warc_headers (env.warcDateNow s2.clock) nf
      ("<urn:uuid:" ++ env.uuid (s2.clock + 1) ++ ">"))
    (warcinfo_content env s2.config)

/- Concrete scenario data used by the counterexamples and witnesses
below: a short configuration, oracle environments, a writer state with
one existing segment f0, and small request and response objects. -/
def exCfg : Config :=
  { warc_spec := "w", max_warc_size := 100, collection := "c", description := "de",
    operator := "o", robots := "r", user_agent := "u", tla := "p", warc_dest := "" }

def exEnv : Env :=
  { getsizeof := fun _ => 10, frameSize := fun _ => 95, timestamp := fun _ => "t",
    hostname := "h", uuid := fun n => toString n, warcDateNow := fun _ => "d",
    scrapyVersion := "v", urlparsePath := fun _ => "/" }

def exEnvSame : Env := { exEnv with frameSize := fun _ => 10 }

def c3Env : Env := { exEnv with getsizeof := fun _ => 200 }

def exS : WState :=
  { warc_fname := some "f0", warc_count := 0, warc_size := 0, max_serial := 99999,
    config := exCfg, fs := [("f0", { records := [], size := 0 })], dirs := [],
    clock := 0, trace := [] }

def exResp : PyObj :=
  { url := "u", headers := some [("H", "1")], method := none, status := some 200,
    body := some "B", meta := none }

def exReq : PyObj :=
  { url := "u2", headers := some [], method := some "GET", status := none,
    body := some "Q", meta := some [("WARC-Date", "D")] }

def exRespNoStatus : PyObj := { exResp with status := none }

def exObjBoth : PyObj :=
  { url := "http://x/y", headers := some [("A", "B")], method := some "GET",
    status := some 200, body := none, meta := none }

def c7S : WState := { exS with warc_count := 100000 }

def c8Sfs : List (String × FileData) :=
  [("f0", { records := [], size := 50 }), ("p-t-00000-h.warc.gz", { records := [], size := 7 })]

def c8S : WState :=
  { exS with config := { exCfg with max_warc_size := 60 }, fs := c8Sfs }

def c9S : WState := { exS with fs := [] }

theorem warcfile_ok_shape (env : Env) (s : WState) (fname : String) (s1 : WState)
    (h : warcfile env s = PRes.ok fname s1) :
    s1 = { s with clock := s.clock + 1 } ∧ fname = newSegName env s ∧
      pathExists s fname = false ∧ s.warc_count ≤ s.max_serial := by
  unfold warcfile at h
  split at h
  · exact absurd h (by simp)
  · split at h
    · exact absurd h (by simp)
    · split at h
      · exact absurd h (by simp)
      · rename_i h1 h2 h3
        cases h
        exact ⟨rfl, rfl, by simpa using h3, by omega⟩

theorem fsLookup_update_self (l : List (String × FileData)) (f : String) (fd : FileData) :
    fsLookup (fsUpdate l f fd) f = some fd := by
  induction l with
  | nil => simp [fsUpdate, fsLookup]
  | cons kv rest ih =>
    by_cases hk : kv.1 = f
    · simp [fsUpdate, fsLookup, hk]
    · simp [fsUpdate, fsLookup, hk, ih]

theorem fsLookup_update_ne (l : List (String × FileData)) (f g : String) (fd : FileData)
    (h : g ≠ f) : fsLookup (fsUpdate l f fd) g = fsLookup l g := by
  induction l with
  | nil => simp [fsUpdate, fsLookup, Ne.symm h]
  | cons kv rest ih =>
    by_cases hk : kv.1 = f
    · simp [fsUpdate, fsLookup, hk, Ne.symm h]
    · simp [fsUpdate, fsLookup, hk, ih]

theorem fsLookup_none_of_pathExists_false (s : WState) (p : String)
    (h : pathExists s p = false) : fsLookup s.fs p = none := by
  unfold pathExists at h
  rcases Bool.or_eq_false_iff.mp h with ⟨h1, _⟩
  exact Option.not_isSome_iff_eq_none.mp (by simp [h1])

theorem write_warcinfo_fresh (fuel : Nat) (env : Env) (s2 : WState) (nf : String)
    (hf : s2.warc_fname = some nf) (hm : fsLookup s2.fs nf = none) :
    write_warcinfo (fuel+1+1+1) env s2 = PRes.ok ()
      (appendRecord env { s2 with clock := s2.clock + 1 + 1 } nf
        (warcinfoRecord env s2 nf)) := by
  simp [write_warcinfo, warc_date, record_id, write_record, bump_serial, hf, hm,
    warcinfoRecord]

theorem create_step_shape (fuel : Nat) (env : Env) (s0 : WState) (s₁ : WState)
    (h : create_new_warc_step (fuel+1+1+1+1) env s0 = PRes.ok () s₁) :
    ∃ nf wr, s₁.warc_fname = some nf ∧ s₁.trace = s0.trace ++ [(nf, wr)] ∧
      recordKind wr = some "warcinfo" ∧ s₁.warc_count = s0.warc_count + 1 := by
  rw [create_new_warc_step] at h
  split at h
  · exact absurd h (by simp)
  · rename_i fname s1 hw
    obtain ⟨hs1, hnm, hpe, hser⟩ := warcfile_ok_shape env s0 fname s1 hw
    subst hs1
    have hm : fsLookup ({ { s0 with clock := s0.clock + 1 } with
        warc_fname := some fname } : WState).fs fname = none :=
      fsLookup_none_of_pathExists_false s0 fname hpe
    rw [write_warcinfo_fresh fuel env _ fname rfl hm] at h
    simp only [PRes.ok.injEq, true_and] at h
    subst h
    exact ⟨fname,
      warcinfoRecord env
        { { s0 with clock := s0.clock + 1 } with warc_fname := some fname } fname,
      by simp [appendRecord], by simp [appendRecord],
      by simp [recordKind, warcinfoRecord, warcinfo_warc_headers, mkRec, lookupHeader],
      by simp [appendRecord]⟩

theorem bump_ok_shape (fuel : Nat) (env : Env) (s : WState) (e : Nat) (s₁ : WState)
    (h : bump_serial (fuel+1+1+1+1+1) env s e = PRes.ok () s₁) :
    (s₁.warc_fname = s.warc_fname ∧ s₁.trace = s.trace ∧
      s₁.warc_count = s.warc_count)
    ∨ (∃ nf wr, s₁.warc_fname = some nf ∧ s₁.trace = s.trace ++ [(nf, wr)] ∧
        recordKind wr = some "warcinfo" ∧ s₁.warc_count = s.warc_count + 1) := by
  rw [bump_serial] at h
  split at h
  · exact Or.inr (create_step_shape fuel env s s₁ h)
  · split at h
    · simp only [PRes.ok.injEq, true_and] at h
      subst h
      exact Or.inl ⟨rfl, rfl, rfl⟩
    · rename_i f heq fd hfd
      split at h
      · exact Or.inr (by simpa using create_step_shape fuel env _ s₁ h)
      · simp only [PRes.ok.injEq, true_and] at h
        subst h
        exact Or.inl ⟨rfl, rfl, rfl⟩

theorem write_record_ok_shape (fuel : Nat) (env : Env) (s : WState)
    (hdrs : List (String × String)) (ct c : String) (s₁ : WState)
    (h : write_record (fuel+1+1+1+1+1+1) env s hdrs ct c = PRes.ok () s₁) :
    ∃ f w, s₁.warc_fname = some f ∧
      s₁.trace = s.trace ++ w ++ [(f, mkRec hdrs c)] ∧
      ((w = [] ∧ s.warc_fname = some f ∧ s₁.warc_count = s.warc_count) ∨
       (∃ wr, w = [(f, wr)] ∧ recordKind wr = some "warcinfo" ∧
          s₁.warc_count = s.warc_count + 1)) := by
  rw [write_record] at h
  split at h
  · exact absurd h (by simp)
  · rename_i u sb hb
    split at h
    · exact absurd h (by simp)
    · rename_i f hsb
      simp only [PRes.ok.injEq, true_and] at h
      subst h
      rcases bump_ok_shape fuel env s (env.getsizeof c) sb hb with
        ⟨hfn, htr, hcnt⟩ | ⟨nf, wr, hfn, htr, hwr, hcnt⟩
      · exact ⟨f, [], by simp [appendRecord, hsb],
          by simp [appendRecord, htr],
          Or.inl ⟨rfl, by rw [← hfn, hsb], by simp [appendRecord, hcnt]⟩⟩
      · have hfnf : nf = f := by rw [hfn] at hsb; exact (Option.some.injEq _ _ ▸ hsb)
        subst hfnf
        exact ⟨nf, [(nf, wr)], by simp [appendRecord, hsb],
          by simp [appendRecord, htr],
          Or.inr ⟨wr, rfl, hwr, by simp [appendRecord, hcnt]⟩⟩

theorem write_ok_shape (fuel : Nat) (env : Env) (s : WState) (resp req : PyObj) (s' : WState)
    (h : write (fuel+1+1+1+1+1+1) env s resp req = PRes.ok () s') :
    ∃ d id1 id2 c1 c2 f1 f2 w1 w2,
      req.meta.bind (fun m => lookupHeader m "WARC-Date") = some d ∧
      s'.trace = s.trace ++ w1 ++ [(f1, mkRec (response_warc_headers resp d id1) c1)]
                         ++ w2 ++ [(f2, mkRec (request_warc_headers req d id2 id1) c2)] ∧
      (w1 = [] ∨ ∃ wr, w1 = [(f1, wr)] ∧ recordKind wr = some "warcinfo") ∧
      (w2 = [] ∨ ∃ wr, w2 = [(f2, wr)] ∧ recordKind wr = some "warcinfo") ∧
      (s'.warc_count = s.warc_count → w1 = [] ∧ w2 = [] ∧ f1 = f2) := by
  unfold write at h
  split at h
  · exact absurd h (by simp)
  · split at h
    · exact absurd h (by simp)
    · split at h
      · exact absurd h (by simp)
      · split at h
        · exact absurd h (by simp)
        · rename_i hst hbd hmth meta hmeta
          split at h
          · exact absurd h (by simp)
          · rename_i hdate
            simp only [record_id] at h
            split at h
            · exact absurd h (by simp)
            · rename_i gh hgh
              split at h
              · exact absurd h (by simp)
              · rename_i u s2 hw1
                cases hlk : lookupHeader meta "WARC-Date" with
                | none => rw [hlk] at hdate; simp at hdate
                | some d =>
                  rw [hlk, Option.getD_some] at hw1
                  unfold write_request at h
                  simp only [hmeta, hlk, record_id] at h
                  split at h
                  · exact absurd h (by simp)
                  · rename_i gh2 hgh2
                    split at h
                    · exact absurd h (by simp)
                    · rename_i b hbody
                      obtain ⟨f1, w1, hfn1, htr1, hd1⟩ :=
                        write_record_ok_shape fuel env _ _ _ _ s2 hw1
                      obtain ⟨f2, w2, hfn2, htr2, hd2⟩ :=
                        write_record_ok_shape fuel env _ _ _ _ s' h
                      refine ⟨d, "<urn:uuid:" ++ env.uuid s.clock ++ ">",
                        "<urn:uuid:" ++ env.uuid s2.clock ++ ">",
                        gh ++ WARC_LINE_SEP ++ WARC_LINE_SEP ++ resp.body.getD "",
                        gh2 ++ WARC_LINE_SEP ++ WARC_LINE_SEP ++ b,
                        f1, f2, w1, w2, by simp [hmeta, hlk], ?_, ?_, ?_, ?_⟩
                      · rw [htr2]
                        simp only [htr1]
                        try simp [List.append_assoc]
                      · rcases hd1 with ⟨hw, _, _⟩ | ⟨wr, hw, hwr, _⟩
                        · exact Or.inl hw
                        · exact Or.inr ⟨wr, hw, hwr⟩
                      · rcases hd2 with ⟨hw, _, _⟩ | ⟨wr, hw, hwr, _⟩
                        · exact Or.inl hw
                        · exact Or.inr ⟨wr, hw, hwr⟩
                      · intro hcc
                        rcases hd1 with ⟨hw1e, hpf1, hc1⟩ | ⟨wr, hw1e, hwr1, hc1⟩ <;>
                          rcases hd2 with ⟨hw2e, hpf2, hc2⟩ | ⟨wr2, hw2e, hwr2, hc2⟩
                        · refine ⟨hw1e, hw2e, ?_⟩
                          have : s2.warc_fname = some f2 := hpf2
                          rw [hfn1] at this
                          exact (Option.some.injEq _ _ ▸ this)
                        · exfalso
                          have e1 : s2.warc_count = s.warc_count := hc1
                          have e2 : s'.warc_count = s2.warc_count + 1 := hc2
                          omega
                        · exfalso
                          have e1 : s2.warc_count = s.warc_count + 1 := hc1
                          have e2 : s'.warc_count = s2.warc_count := hc2
                          omega
                        · exfalso
                          have e1 : s2.warc_count = s.warc_count + 1 := hc1
                          have e2 : s'.warc_count = s2.warc_count + 1 := hc2
                          omega

theorem recordKind_mkRec (hdrs : List (String × String)) (c : String) :
    recordKind (mkRec hdrs c) = lookupHeader hdrs "WARC-Type" := rfl

theorem resp_hdrs_type (resp : PyObj) (d rid : String) :
    lookupHeader (response_warc_headers resp d rid) "WARC-Type" = some "response" := rfl

theorem resp_hdrs_date (resp : PyObj) (d rid : String) :
    lookupHeader (response_warc_headers resp d rid) "WARC-Date" = some d := rfl

theorem resp_hdrs_rid (resp : PyObj) (d rid : String) :
    lookupHeader (response_warc_headers resp d rid) "WARC-Record-ID" = some rid := rfl

theorem req_hdrs_type (req : PyObj) (d rid cto : String) :
    lookupHeader (request_warc_headers req d rid cto) "WARC-Type" = some "request" := rfl

theorem req_hdrs_date (req : PyObj) (d rid cto : String) :
    lookupHeader (request_warc_headers req d rid cto) "WARC-Date" = some d := rfl

theorem req_hdrs_cto (req : PyObj) (d rid cto : String) :
    lookupHeader (request_warc_headers req d rid cto) "WARC-Concurrent-To" = some cto := rfl

theorem warcfile_ok_of (env : Env) (s : WState)
    (hser : s.warc_count ≤ s.max_serial)
    (hdest : s.config.warc_dest = "" ∨ pathExists s s.config.warc_dest = true)
    (hcol : pathExists s (newSegName env s) = false) :
    warcfile env s = PRes.ok (newSegName env s) { s with clock := s.clock + 1 } := by
  unfold warcfile
  rw [if_neg (by omega)]
  rw [if_neg (by rcases hdest with h | h <;> simp [h])]
  rw [if_neg (by simp [hcol])]

theorem warcfile_collision (env : Env) (s : WState)
    (hser : s.warc_count ≤ s.max_serial)
    (hdest : s.config.warc_dest = "" ∨ pathExists s s.config.warc_dest = true)
    (hcol : pathExists s (newSegName env s) = true) :
    warcfile env s = PRes.err
      (PyError.ioError ("WARC file exists: " ++ newSegName env s))
      { s with clock := s.clock + 1 } := by
  unfold warcfile
  rw [if_neg (by omega)]
  rw [if_neg (by rcases hdest with h | h <;> simp [h])]
  rw [if_pos hcol]

/-- Claim C10: get_headers raises its ambiguous-shape ValueError iff the
input has a header collection but neither a method nor a status
attribute; with a header collection and both method and status it does
not raise and renders the request form, the method check winning. -/
theorem C10_get_headers (env : Env) (rec0 : PyObj) :
    (get_headers env rec0 =
        Except.error (PyError.valueError "Unable to form http_line from record.") ↔
      rec0.headers.isSome ∧ rec0.method = none ∧ rec0.status = none)
    ∧ (∀ hs m st, rec0.headers = some hs → rec0.method = some m → rec0.status = some st →
        get_headers env rec0 = Except.ok (String.intercalate WARC_LINE_SEP
          ((m ++ " " ++ env.urlparsePath rec0.url ++ " " ++ "HTTP/1.0")
            :: hs.map (fun kv => kv.1 ++ ": " ++ kv.2)))) := by
  constructor
  · constructor
    · intro h
      unfold get_headers at h
      cases hh : rec0.headers with
      | none => rw [hh] at h; simp at h
      | some hs =>
        rw [hh] at h
        cases hm : rec0.method with
        | some m => rw [hm] at h; simp at h
        | none =>
          rw [hm] at h
          cases hst : rec0.status with
          | some st => rw [hst] at h; simp at h
          | none => exact ⟨by simp, rfl, rfl⟩
    · rintro ⟨h1, h2, h3⟩
      obtain ⟨hs, hh⟩ := Option.isSome_iff_exists.mp h1
      simp [get_headers, hh, h2, h3]
  · intro hs m st hh hm _
    simp [get_headers, hh, hm]

/-- Claim C6: an exchange failing validation makes write raise a
ValueError with the state exactly as it was: no file is created or
modified and no record of the pair is written. -/
theorem C6_validation_atomic (fuel : Nat) (env : Env) (s : WState) (resp req : PyObj)
    (h : resp.status = none ∨ resp.body = none ∨ req.method = none ∨ req.meta = none ∨
      (req.meta.bind (fun m => lookupHeader m "WARC-Date")).getD "" = "") :
    ∃ msg, write fuel env s resp req = PRes.err (PyError.valueError msg) s := by
  unfold write
  by_cases h1 : resp.status.isNone
  · exact ⟨"Response missing HTTP status", by simp [h1]⟩
  · by_cases h2 : resp.body.isNone
    · exact ⟨"Response missing body", by simp [h1, h2]⟩
    · by_cases h3 : req.method.isNone
      · exact ⟨"Request missing method", by simp [h1, h2, h3]⟩
      · cases hm : req.meta with
        | none => exact ⟨"Request missing meta", by simp [h1, h2, h3, hm]⟩
        | some meta =>
          by_cases h4 : (lookupHeader meta "WARC-Date").getD "" = ""
          · exact ⟨"Request missing WARC-Date", by simp [h1, h2, h3, hm, h4]⟩
          · exfalso
            rcases h with h | h | h | h | h
            · exact h1 (by simp [h])
            · exact h2 (by simp [h])
            · exact h3 (by simp [h])
            · rw [hm] at h; cases h
            · rw [hm] at h; exact h4 (by simpa using h)

/-- Claim C7 (amended): when warc_count exceeds max_serial, warcfile
raises ValueError (not OverflowError) with the state unchanged: the
serial does not wrap and no new segment file name is produced. -/
theorem C7_serial_exhaustion_amended (env : Env) (s : WState)
    (h : s.warc_count > s.max_serial) :
    warcfile env s = PRes.err (PyError.valueError
      ("warc_count: " ++ toString s.warc_count ++ " exceeds max_serial: "
        ++ toString s.max_serial)) s := by
  unfold warcfile
  rw [if_pos h]

/-- Claim C8 (amended): a threshold-triggered rotation attempt whose
computed segment name already exists on disk makes bump_serial raise
IOError (message WARC file exists) with nothing written: the
filesystem, the current segment name and the record count are
unchanged; only the cached warc_size is refreshed to the file's actual
on-disk size. -/
theorem C8_collision_amended (fuel : Nat) (env : Env) (s : WState) (e : Nat)
    (f : String) (fd : FileData)
    (hf : s.warc_fname = some f) (hfd : fsLookup s.fs f = some fd)
    (hrot : s.config.max_warc_size ≤ fd.size + e)
    (hser : s.warc_count ≤ s.max_serial)
    (hdest : s.config.warc_dest = "" ∨ pathExists s s.config.warc_dest = true)
    (hcol : pathExists s (newSegName env s) = true) :
    bump_serial (fuel+1+1) env s e =
      PRes.err (PyError.ioError ("WARC file exists: " ++ newSegName env s))
        { s with warc_size := fd.size, clock := s.clock + 1 } ∧
    ({ s with warc_size := fd.size, clock := s.clock + 1 } : WState).fs = s.fs ∧
    ({ s with warc_size := fd.size, clock := s.clock + 1 } : WState).warc_fname = s.warc_fname ∧
    ({ s with warc_size := fd.size, clock := s.clock + 1 } : WState).warc_count = s.warc_count ∧
    ({ s with warc_size := fd.size, clock := s.clock + 1 } : WState).trace = s.trace := by
  refine ⟨?_, rfl, rfl, rfl, rfl⟩
  rw [bump_serial]
  simp only [hf, hfd]
  rw [if_pos hrot]
  rw [create_new_warc_step]
  rw [warcfile_collision env { s with warc_fname := some f, warc_size := fd.size }
    hser hdest hcol]
  rfl

/-- Claim C9: with a current segment name whose file is absent from
disk, write_record never rotates whatever the content size: warc_size
stays stale, warc_count is unchanged, and the record is appended to a
freshly created file at the old path whose first (and only) record is
the caller's record, not a segment-info record. -/
theorem C9_missing_file (fuel : Nat) (env : Env) (s : WState)
    (hdrs : List (String × String)) (ct c : String) (f : String)
    (hf : s.warc_fname = some f) (hmiss : fsLookup s.fs f = none)
    (hkind : lookupHeader hdrs "WARC-Type" ≠ some "warcinfo") :
    ∃ s', write_record (fuel+1+1) env s hdrs ct c = PRes.ok () s' ∧
      s'.warc_fname = some f ∧ s'.warc_count = s.warc_count ∧
      s'.warc_size = s.warc_size ∧
      fsLookup s'.fs f =
        some { records := [mkRec hdrs c], size := env.frameSize (mkRec hdrs c) } ∧
      recordKind (mkRec hdrs c) ≠ some "warcinfo" := by
  refine ⟨appendRecord env s f (mkRec hdrs c), ?_, ?_, ?_, ?_, ?_, hkind⟩
  · rw [write_record]
    simp only [bump_serial, hf, hmiss]
  · simp [appendRecord, hf]
  · simp [appendRecord]
  · simp [appendRecord]
  · simp [appendRecord, hmiss, fsLookup_update_self]

theorem appendRecord_warc_fname (env : Env) (s : WState) (f : String) (r : SerializedRecord) :
    (appendRecord env s f r).warc_fname = s.warc_fname := rfl

theorem appendRecord_warc_count (env : Env) (s : WState) (f : String) (r : SerializedRecord) :
    (appendRecord env s f r).warc_count = s.warc_count := rfl

theorem appendRecord_warc_size (env : Env) (s : WState) (f : String) (r : SerializedRecord) :
    (appendRecord env s f r).warc_size = s.warc_size := rfl

theorem appendRecord_trace (env : Env) (s : WState) (f : String) (r : SerializedRecord) :
    (appendRecord env s f r).trace = s.trace ++ [(f, r)] := rfl

theorem appendRecord_fs (env : Env) (s : WState) (f : String) (r : SerializedRecord) :
    (appendRecord env s f r).fs = fsUpdate s.fs f
      { records := ((fsLookup s.fs f).getD { records := [], size := 0 }).records ++ [r],
        size := ((fsLookup s.fs f).getD { records := [], size := 0 }).size + env.frameSize r } :=
  rfl

/-- Successful run of the create_new_warc_step block: the new segment
name is installed, warc_count is bumped, and the new segment file
holds exactly one record, the warcinfo record. -/
theorem create_step_run (fuel : Nat) (env : Env) (s0 : WState)
    (hser : s0.warc_count ≤ s0.max_serial)
    (hdest : s0.config.warc_dest = "" ∨ pathExists s0 s0.config.warc_dest = true)
    (hcol : pathExists s0 (newSegName env s0) = false) :
    ∃ s1, create_new_warc_step (fuel+1+1+1+1) env s0 = PRes.ok () s1 ∧
      s1.warc_fname = some (newSegName env s0) ∧
      s1.warc_count = s0.warc_count + 1 ∧
      s1.warc_size = s0.warc_size ∧
      ∃ wr sz, recordKind wr = some "warcinfo" ∧
        s1.fs = fsUpdate s0.fs (newSegName env s0) { records := [wr], size := sz } ∧
        s1.trace = s0.trace ++ [(newSegName env s0, wr)] := by
  have hm0 : fsLookup s0.fs (newSegName env s0) = none :=
    fsLookup_none_of_pathExists_false s0 _ hcol
  refine ⟨{ appendRecord env { s0 with warc_fname := some (newSegName env s0), clock := s0.clock + 1 + 1 + 1 } (newSegName env s0) (warcinfoRecord env { s0 with warc_fname := some (newSegName env s0), clock := s0.clock + 1 } (newSegName env s0)) with warc_count := s0.warc_count + 1 },
    ?_, ?_, ?_, ?_,
    warcinfoRecord env { s0 with warc_fname := some (newSegName env s0), clock := s0.clock + 1 } (newSegName env s0),
    env.frameSize (warcinfoRecord env { s0 with warc_fname := some (newSegName env s0), clock := s0.clock + 1 } (newSegName env s0)),
    ?_, ?_, ?_⟩
  · simp [create_new_warc_step, warcfile_ok_of env s0 hser hdest hcol,
      write_warcinfo, warc_date, record_id, write_record, bump_serial, hm0,
      warcinfoRecord, appendRecord]
  · simp [appendRecord_warc_fname]
  · rfl
  · simp [appendRecord_warc_size]
  · rfl
  · simp [appendRecord_fs, hm0]
  · simp [appendRecord_trace]

/-- Claim C3: for a write_record call with a current on-disk segment of
size S: when S plus the getsizeof estimate of the content reaches
max_warc_size (and the rotation itself can succeed), a new segment is
begun whose first record is the segment-info record, the written
record following it, and the old segment is untouched; when it stays
strictly below, no new segment is created and the record is appended
to the current segment. -/
theorem C3_rotation_threshold (fuel : Nat) (env : Env) (s : WState)
    (hdrs : List (String × String)) (ct c : String) (f : String) (fd : FileData)
    (hf : s.warc_fname = some f) (hfd : fsLookup s.fs f = some fd)
    (hser : s.warc_count ≤ s.max_serial)
    (hdest : s.config.warc_dest = "" ∨ pathExists s s.config.warc_dest = true)
    (hcol : pathExists s (newSegName env s) = false) :
    (s.config.max_warc_size ≤ fd.size + env.getsizeof c →
      ∃ s2 wr sz, write_record (fuel+1+1+1+1+1+1) env s hdrs ct c = PRes.ok () s2 ∧
        s2.warc_fname = some (newSegName env s) ∧ newSegName env s ≠ f ∧
        s2.warc_count = s.warc_count + 1 ∧
        fsLookup s2.fs (newSegName env s) =
          some { records := [wr, mkRec hdrs c], size := sz } ∧
        recordKind wr = some "warcinfo" ∧
        fsLookup s2.fs f = some fd)
    ∧ (fd.size + env.getsizeof c < s.config.max_warc_size →
      ∃ s2, write_record (fuel+1+1+1+1+1+1) env s hdrs ct c = PRes.ok () s2 ∧
        s2.warc_fname = some f ∧ s2.warc_count = s.warc_count ∧
        s2.fs = fsUpdate s.fs f { records := fd.records ++ [mkRec hdrs c], size := fd.size + env.frameSize (mkRec hdrs c) }) := by
  have hm : fsLookup s.fs (newSegName env s) = none :=
    fsLookup_none_of_pathExists_false s _ hcol
  have hne : newSegName env s ≠ f := by
    intro he; rw [he, hfd] at hm; cases hm
  constructor
  · intro hge
    obtain ⟨s1, hrun, hfn1, hcnt1, hsz1, wr, sz, hwr, hfs1, htr1⟩ :=
      create_step_run fuel env { s with warc_fname := some f, warc_size := fd.size }
        hser hdest hcol
    have hnsn : newSegName env { s with warc_fname := some f, warc_size := fd.size } = newSegName env s := rfl
    rw [hnsn] at hfn1 hfs1 htr1
    have hlk1 : fsLookup s1.fs (newSegName env s) =
        some { records := [wr], size := sz } := by
      rw [hfs1]
      exact fsLookup_update_self _ _ _
    have hlkf : fsLookup s1.fs f = some fd := by
      rw [hfs1]
      rw [fsLookup_update_ne _ _ _ _ hne.symm]
      exact hfd
    refine ⟨appendRecord env s1 (newSegName env s) (mkRec hdrs c), wr,
      sz + env.frameSize (mkRec hdrs c), ?_, ?_, hne, ?_, ?_, hwr, ?_⟩
    · rw [write_record]
      rw [bump_serial]
      simp only [hf, hfd]
      rw [if_pos hge]
      simp only [hrun, hfn1]
    · simp [appendRecord_warc_fname, hfn1]
    · simp [appendRecord_warc_count, hcnt1]
    · simp [appendRecord_fs, hlk1, fsLookup_update_self]
    · simp only [appendRecord_fs]
      rw [fsLookup_update_ne _ _ _ _ hne.symm]
      exact hlkf
  · intro hlt
    refine ⟨appendRecord env { s with warc_size := fd.size } f (mkRec hdrs c),
      ?_, ?_, ?_, ?_⟩
    · rw [write_record]
      simp [bump_serial, hf, hfd, Nat.not_le.mpr hlt]
    · simp [appendRecord_warc_fname, hf]
    · simp [appendRecord_warc_count]
    · simp [appendRecord_fs, hfd]

/-- Claim C4: every accepted exchange places the identical WARC-Date
value, the timestamp pre-stamped at request.meta key WARC-Date, in the
header tuples of both the response record and its paired request
record. -/
theorem C4_timestamp_equality (fuel : Nat) (env : Env) (s : WState) (resp req : PyObj)
    (s2 : WState)
    (h : write (fuel+1+1+1+1+1+1) env s resp req = PRes.ok () s2) :
    ∃ d w1 w2 f1 f2 r1 r2,
      req.meta.bind (fun m => lookupHeader m "WARC-Date") = some d ∧
      s2.trace = s.trace ++ w1 ++ [(f1, r1)] ++ w2 ++ [(f2, r2)] ∧
      recordKind r1 = some "response" ∧ recordKind r2 = some "request" ∧
      lookupHeader r1.http_headers "WARC-Date" = some d ∧
      lookupHeader r2.http_headers "WARC-Date" = some d := by
  obtain ⟨d, id1, id2, c1, c2, f1, f2, w1, w2, hd, htr, hw1, hw2, hloc⟩ :=
    write_ok_shape fuel env s resp req s2 h
  exact ⟨d, w1, w2, f1, f2, _, _, hd, htr,
    recordKind_mkRec _ _ ▸ resp_hdrs_type resp d id1,
    recordKind_mkRec _ _ ▸ req_hdrs_type req d id2 id1,
    resp_hdrs_date resp d id1, req_hdrs_date req d id2 id1⟩

/-- Claim C5: every accepted exchange sets the request record's
WARC-Concurrent-To header to exactly the WARC-Record-ID placed in the
response record written immediately before it. -/
theorem C5_linkage (fuel : Nat) (env : Env) (s : WState) (resp req : PyObj)
    (s2 : WState)
    (h : write (fuel+1+1+1+1+1+1) env s resp req = PRes.ok () s2) :
    ∃ id1 w1 w2 f1 f2 r1 r2,
      s2.trace = s.trace ++ w1 ++ [(f1, r1)] ++ w2 ++ [(f2, r2)] ∧
      recordKind r1 = some "response" ∧ recordKind r2 = some "request" ∧
      lookupHeader r1.http_headers "WARC-Record-ID" = some id1 ∧
      lookupHeader r2.http_headers "WARC-Concurrent-To" = some id1 := by
  obtain ⟨d, id1, id2, c1, c2, f1, f2, w1, w2, hd, htr, hw1, hw2, hloc⟩ :=
    write_ok_shape fuel env s resp req s2 h
  exact ⟨id1, w1, w2, f1, f2, _, _, htr,
    recordKind_mkRec _ _ ▸ resp_hdrs_type resp d id1,
    recordKind_mkRec _ _ ▸ req_hdrs_type req d id2 id1,
    resp_hdrs_rid resp d id1, req_hdrs_cto req d id2 id1⟩

/-- Claim C1 (amended): the rotation decision is made before each of
the pair's record writes separately, so a rotation can fall between
them and split the pair; whenever no rotation fires during the
exchange (warc_count unchanged), the response record and its linked
request record are appended consecutively to the same segment file. -/
theorem C1_pair_locality_amended (fuel : Nat) (env : Env) (s : WState)
    (resp req : PyObj) (s2 : WState)
    (h : write (fuel+1+1+1+1+1+1) env s resp req = PRes.ok () s2)
    (hcc : s2.warc_count = s.warc_count) :
    ∃ f r1 r2, s2.trace = s.trace ++ [(f, r1), (f, r2)] ∧
      recordKind r1 = some "response" ∧ recordKind r2 = some "request" ∧
      ∃ id1, lookupHeader r1.http_headers "WARC-Record-ID" = some id1 ∧
        lookupHeader r2.http_headers "WARC-Concurrent-To" = some id1 := by
  obtain ⟨d, id1, id2, c1, c2, f1, f2, w1, w2, hd, htr, hw1, hw2, hloc⟩ :=
    write_ok_shape fuel env s resp req s2 h
  obtain ⟨he1, he2, hf⟩ := hloc hcc
  subst he1
  subst he2
  subst hf
  refine ⟨f1, _, _, by simpa using htr, ?_, ?_, id1, ?_, ?_⟩
  · exact recordKind_mkRec _ _ ▸ resp_hdrs_type resp d id1
  · exact recordKind_mkRec _ _ ▸ req_hdrs_type req d id2 id1
  · exact resp_hdrs_rid resp d id1
  · exact req_hdrs_cto req d id2 id1


/-- Claim C1 (counterexample): a concrete accepted exchange whose
response record lands in segment f0 while its linked request record
(whose WARC-Concurrent-To is the response's WARC-Record-ID) lands in
the freshly rotated segment, because the threshold is crossed between
the two per-record rotation decisions. -/
theorem C1_counterexample :
    presIsOk (write (0+1+1+1+1+1+1) exEnv exS exResp exReq) = true ∧
    (presState (write (0+1+1+1+1+1+1) exEnv exS exResp exReq)).trace.map Prod.fst =
      ["f0", "p-t-00000-h.warc.gz", "p-t-00000-h.warc.gz"] ∧
    ("f0" : String) ≠ "p-t-00000-h.warc.gz" ∧
    (presState (write (0+1+1+1+1+1+1) exEnv exS exResp exReq)).trace.map
        (fun p => recordKind p.2) =
      [some "response", some "warcinfo", some "request"] ∧
    ((presState (write (0+1+1+1+1+1+1) exEnv exS exResp exReq)).trace.map
        (fun p => lookupHeader p.2.http_headers "WARC-Record-ID")).head? =
      some (some "<urn:uuid:0>") ∧
    ((presState (write (0+1+1+1+1+1+1) exEnv exS exResp exReq)).trace.map
        (fun p => lookupHeader p.2.http_headers "WARC-Concurrent-To")).getLast? =
      some (some "<urn:uuid:0>") :=
  ⟨by decide, by decide, by decide, by decide, by decide, by decide⟩

/-- Claim C2 (code bug): in the same concrete run, the response,
warcinfo and request records all reach the serializer with
record_type response: the constructed WARC-Type header (the record's
kind) and the serialized type disagree for warcinfo and request
records. -/
theorem C2_code_bug :
    (presState (write (0+1+1+1+1+1+1) exEnv exS exResp exReq)).trace.map
        (fun p => (recordKind p.2, p.2.record_type)) =
      [(some "response", "response"), (some "warcinfo", "response"),
       (some "request", "response")] := by decide

/-- Claim C7 (counterexample): with warc_count 100000 and max_serial
99999 the code raises ValueError, not Python's OverflowError. -/
theorem C7_counterexample :
    warcfile exEnv c7S = PRes.err (PyError.valueError
      "warc_count: 100000 exceeds max_serial: 99999") c7S ∧
    presErrIsOverflow (warcfile exEnv c7S) = false :=
  ⟨by decide, by decide⟩

/-- Witness for claim C7's amended theorem at a concrete exhausted
state. -/
theorem C7_amended_witness :
    warcfile exEnv c7S = PRes.err (PyError.valueError
      ("warc_count: " ++ toString c7S.warc_count ++ " exceeds max_serial: "
        ++ toString c7S.max_serial)) c7S :=
  C7_serial_exhaustion_amended exEnv c7S (by decide)

/-- Claim C8 (counterexample): a collision-failing rotation attempt
does change writer state: warc_size is refreshed from 0 to the
on-disk 50 before the IOError is raised. -/
theorem C8_counterexample :
    bump_serial (0+1+1) exEnv c8S 10 =
      PRes.err (PyError.ioError "WARC file exists: p-t-00000-h.warc.gz")
        { c8S with warc_size := 50, clock := 1 } ∧
    c8S.warc_size = 0 ∧
    (presState (bump_serial (0+1+1) exEnv c8S 10)).warc_size = 50 :=
  ⟨by decide, by decide, by decide⟩

/-- Witness for claim C8's amended theorem at the concrete colliding
state. -/
theorem C8_amended_witness :
    bump_serial (0+1+1) exEnv c8S 10 =
      PRes.err (PyError.ioError ("WARC file exists: " ++ newSegName exEnv c8S))
        { c8S with warc_size := 50, clock := c8S.clock + 1 } ∧
    ({ c8S with warc_size := 50, clock := c8S.clock + 1 } : WState).fs = c8S.fs ∧
    ({ c8S with warc_size := 50, clock := c8S.clock + 1 } : WState).warc_fname =
      c8S.warc_fname ∧
    ({ c8S with warc_size := 50, clock := c8S.clock + 1 } : WState).warc_count =
      c8S.warc_count ∧
    ({ c8S with warc_size := 50, clock := c8S.clock + 1 } : WState).trace = c8S.trace :=
  C8_collision_amended 0 exEnv c8S 10 "f0" { records := [], size := 50 }
    rfl (by decide) (by decide) (by decide) (Or.inl rfl) (by decide)

/-- Witness for claim C3 at a concrete over-threshold write. -/
theorem C3_witness :
    ∃ s2 wr sz, write_record (0+1+1+1+1+1+1) c3Env exS
        [("WARC-Type", "response")] "ct" "C" = PRes.ok () s2 ∧
      s2.warc_fname = some (newSegName c3Env exS) ∧ newSegName c3Env exS ≠ "f0" ∧
      s2.warc_count = exS.warc_count + 1 ∧
      fsLookup s2.fs (newSegName c3Env exS) =
        some { records := [wr, mkRec [("WARC-Type", "response")] "C"], size := sz } ∧
      recordKind wr = some "warcinfo" ∧
      fsLookup s2.fs "f0" = some { records := [], size := 0 } :=
  (C3_rotation_threshold 0 c3Env exS [("WARC-Type", "response")] "ct" "C" "f0"
    { records := [], size := 0 } rfl (by decide) (by decide) (Or.inl rfl)
    (by decide)).1 (by decide)

/-- Witness for claim C9 at a concrete state whose current segment
file is missing from disk. -/
theorem C9_witness :
    ∃ s2, write_record (0+1+1) exEnv c9S [("WARC-Type", "response")] "ct" "C" =
        PRes.ok () s2 ∧
      s2.warc_fname = some "f0" ∧ s2.warc_count = c9S.warc_count ∧
      s2.warc_size = c9S.warc_size ∧
      fsLookup s2.fs "f0" =
        some { records := [mkRec [("WARC-Type", "response")] "C"],
               size := exEnv.frameSize (mkRec [("WARC-Type", "response")] "C") } ∧
      recordKind (mkRec [("WARC-Type", "response")] "C") ≠ some "warcinfo" :=
  C9_missing_file 0 exEnv c9S [("WARC-Type", "response")] "ct" "C" "f0" rfl rfl
    (by decide)

/-- Witness for claim C6: a response without a status is rejected with
the state untouched. -/
theorem C6_witness :
    ∃ msg, write 0 exEnv exS exRespNoStatus exReq =
      PRes.err (PyError.valueError msg) exS :=
  C6_validation_atomic 0 exEnv exS exRespNoStatus exReq (Or.inl rfl)

/-- Witness for claim C10 at an object exposing headers, method and
status together. -/
theorem C10_witness :
    get_headers exEnv exObjBoth = Except.ok (String.intercalate WARC_LINE_SEP
      (("GET" ++ " " ++ exEnv.urlparsePath exObjBoth.url ++ " " ++ "HTTP/1.0")
        :: ([("A", "B")] : List (String × String)).map
             (fun kv => kv.1 ++ ": " ++ kv.2))) :=
  (C10_get_headers exEnv exObjBoth).2 [("A", "B")] "GET" 200 rfl rfl rfl

/-- Witness for claim C4 on a concrete accepted exchange. -/
theorem C4_witness :
    ∃ d w1 w2 f1 f2 r1 r2,
      exReq.meta.bind (fun m => lookupHeader m "WARC-Date") = some d ∧
      (presState (write (0+1+1+1+1+1+1) exEnv exS exResp exReq)).trace =
        exS.trace ++ w1 ++ [(f1, r1)] ++ w2 ++ [(f2, r2)] ∧
      recordKind r1 = some "response" ∧ recordKind r2 = some "request" ∧
      lookupHeader r1.http_headers "WARC-Date" = some d ∧
      lookupHeader r2.http_headers "WARC-Date" = some d :=
  C4_timestamp_equality 0 exEnv exS exResp exReq
    (presState (write (0+1+1+1+1+1+1) exEnv exS exResp exReq)) (by decide)

/-- Witness for claim C5 on a concrete accepted exchange. -/
theorem C5_witness :
    ∃ id1 w1 w2 f1 f2 r1 r2,
      (presState (write (0+1+1+1+1+1+1) exEnv exS exResp exReq)).trace =
        exS.trace ++ w1 ++ [(f1, r1)] ++ w2 ++ [(f2, r2)] ∧
      recordKind r1 = some "response" ∧ recordKind r2 = some "request" ∧
      lookupHeader r1.http_headers "WARC-Record-ID" = some id1 ∧
      lookupHeader r2.http_headers "WARC-Concurrent-To" = some id1 :=
  C5_linkage 0 exEnv exS exResp exReq
    (presState (write (0+1+1+1+1+1+1) exEnv exS exResp exReq)) (by decide)

/-- Witness for claim C1's amended theorem on a concrete exchange with
no rotation. -/
theorem C1_amended_witness :
    ∃ f r1 r2,
      (presState (write (0+1+1+1+1+1+1) exEnvSame exS exResp exReq)).trace =
        exS.trace ++ [(f, r1), (f, r2)] ∧
      recordKind r1 = some "response" ∧ recordKind r2 = some "request" ∧
      ∃ id1, lookupHeader r1.http_headers "WARC-Record-ID" = some id1 ∧
        lookupHeader r2.http_headers "WARC-Concurrent-To" = some id1 :=
  C1_pair_locality_amended 0 exEnvSame exS exResp exReq
    (presState (write (0+1+1+1+1+1+1) exEnvSame exS exResp exReq))
    (by decide) (by decide)
